import Mathlib

/-!
Shallow embedding of `src/transport/smtp/client/net.rs` (lettre SMTP client
network layer).  External collaborators (the OS socket layer, the DNS
resolver, and the TLS backends) are modelled as environments: records of
functions that decide the outcome of each external call.  Build-time `cfg`
flags (`native-tls` / `rustls-tls` features, `debug_assertions`, `windows`)
are modelled as a record of booleans so that every compile-time branch of
the source is represented.
-/

namespace Lettre

/-- Build configuration flags: which cargo features are compiled in,
whether debug assertions are active (`debug_assert!` panics iff they are),
and whether the target platform is Windows (`cfg!(windows)`). -/
structure BuildConfig where
  native_tls : Bool
  rustls_tls : Bool
  debug_assertions : Bool
  windows : Bool
deriving DecidableEq, Repr

/-- Outcome of running a piece of Rust code that may panic: either a panic
with a message (`panic!` / a failing `debug_assert!` / `unwrap` on `None`),
or a normally returned value. -/
inductive Outcome (α : Type) where
  | panic : String → Outcome α
  | ret : α → Outcome α
deriving DecidableEq, Repr

/-- Modelled from the spec: the error type of `crate::transport::smtp::error`
(not under `src/`).  Spec §7 lists the categories surfaced by this core and
the constructor helpers `error::connection`, `error::client`, `error::tls`
classify a failure into one of them while keeping the underlying cause. -/
inductive ErrorKind where
  | Connection
  | Client
  | Tls
deriving DecidableEq, Repr

/-- Modelled from the spec: a categorized error carrying its cause as a
message. -/
structure Error where
  kind : ErrorKind
  msg : String
deriving DecidableEq, Repr

/-- Modelled from the spec: `error::connection` builds a connection-category
error from an underlying cause. -/
def error.connection (m : String) : Error := { kind := ErrorKind.Connection, msg := m }

/-- Modelled from the spec: `error::client` builds a client/usage-category
error. -/
def error.client (m : String) : Error := { kind := ErrorKind.Client, msg := m }

/-- Modelled from the spec: `error::tls` builds an encryption/certificate
category error. -/
def error.tls (m : String) : Error := { kind := ErrorKind.Tls, msg := m }

/-- An I/O error from the OS or a TLS backend, identified by its message
(this is the `cause` preserved inside a categorized `Error`). -/
abbrev IoError := String

/-- Rust `std::net::IpAddr`: a v4 address (four octets) or a v6 address
(modelled by an abstract numeric identifier). -/
inductive IpAddr where
  | V4 : Nat → Nat → Nat → Nat → IpAddr
  | V6 : Nat → IpAddr
deriving DecidableEq, Repr

/-- Rust `IpAddr::is_ipv4`. -/
def IpAddr.is_ipv4 : IpAddr → Bool
  | IpAddr.V4 _ _ _ _ => true
  | IpAddr.V6 _ => false

/-- Rust `IpAddr::is_ipv6`. -/
def IpAddr.is_ipv6 : IpAddr → Bool
  | IpAddr.V4 _ _ _ _ => false
  | IpAddr.V6 _ => true

/-- Rust `std::net::SocketAddr`: an IP address plus a port. -/
structure SocketAddr where
  ip : IpAddr
  port : Nat
deriving DecidableEq, Repr

/-- Rust `std::net::Shutdown`. -/
inductive Shutdown where
  | Read
  | Write
  | Both
deriving DecidableEq, Repr

/-- Rust `std::time::Duration`, abstracted to a number. -/
abbrev Duration := Nat

/-- Model of `std::net::TcpStream`: an established socket, observed through
the results the OS would give for each operation on it.  `read`/`write`
take the buffer and give the count result of one call. -/
structure TcpStream where
  peer_addr : Except IoError SocketAddr
  read : List Nat → Except IoError Nat
  write : List Nat → Except IoError Nat
  flush : Except IoError Unit
  shutdown : Shutdown → Except IoError Unit
  set_read_timeout : Option Duration → Except IoError Unit
  set_write_timeout : Option Duration → Except IoError Unit

/-- Model of `socket2::Socket`: `socket.into()` is the `TcpStream` the
socket becomes once connected. -/
structure Socket where
  into : TcpStream

/-- Model of the `native_tls` session state reachable from a
`TlsStream<TcpStream>` besides the wrapped socket: certificate data and the
results of the encrypted I/O calls. -/
structure NativeSession where
  peer_certificate : Except IoError (Option (Except IoError (List Nat)))
  read : List Nat → Except IoError Nat
  write : List Nat → Except IoError Nat
  flush : Except IoError Unit

/-- Model of `native_tls::TlsStream<TcpStream>`: the session plus the
wrapped socket (`get_ref()` returns `inner`). -/
structure NativeTlsStream where
  sess : NativeSession
  inner : TcpStream

/-- Model of `rustls::ClientConnection`: the peer certificate chain (DER
bytes per certificate) it would report after the handshake. -/
structure ClientConnection where
  peer_certificates : Option (List (List Nat))

/-- Model of `rustls::StreamOwned<ClientConnection, TcpStream>`:
`get_ref()` returns `sock`; encrypted I/O results are carried alongside. -/
structure RustlsStreamOwned where
  conn : ClientConnection
  sock : TcpStream
  read : List Nat → Except IoError Nat
  write : List Nat → Except IoError Nat
  flush : Except IoError Unit

/-- The `InnerNetworkStream` enum.  All four variants are represented; the
TLS ones exist in the source only under their cargo feature, which the
functions below account for via `BuildConfig`. -/
inductive InnerNetworkStream where
  | Tcp : TcpStream → InnerNetworkStream
  | NativeTls : NativeTlsStream → InnerNetworkStream
  | RustlsTls : RustlsStreamOwned → InnerNetworkStream
  | None : InnerNetworkStream

/-- The `NetworkStream` struct: a single `inner` field. -/
structure NetworkStream where
  inner : InnerNetworkStream

/-- The `InnerTlsParameters` enum (from `super`): a connector for exactly one
backend.  Connectors themselves are opaque; the handshake environment
interprets them. -/
inductive InnerTlsParameters where
  | NativeTls : Nat → InnerTlsParameters
  | RustlsTls : Nat → InnerTlsParameters

/-- The `TlsParameters` struct (from `super`): the connector plus the target domain
name returned by `tls_parameters.domain()`. -/
structure TlsParameters where
  connector : InnerTlsParameters
  domain : String

/-- Environment for the TLS backends: decides the outcome of
`connector.connect` (native-tls), `ServerName::try_from` (a failing
conversion means the domain is not a valid DNS name), and
`ClientConnection::new` (rustls). -/
structure HandshakeEnv where
  nativeConnect : Nat → String → Except IoError NativeSession
  serverNameTryFrom : String → Option String
  clientConnectionNew : Nat → String → Except IoError ClientConnection
  rustlsIo : List Nat → Except IoError Nat
  rustlsIoW : List Nat → Except IoError Nat
  rustlsFlush : Except IoError Unit

/-- Environment for the dialer: `socket2::Socket::new` (the domain argument
`Domain::for_address(addr)` is determined by the address, which the
environment receives), `socket.bind`, and the two connect entry points. -/
structure DialEnv where
  socketNew : SocketAddr → Except IoError Socket
  bind : Socket → SocketAddr → Except IoError Unit
  connect_timeout : Socket → SocketAddr → Duration → Except IoError Unit
  connect : Socket → SocketAddr → Except IoError Unit

/-- The apostrophe character, used to spell string literals from the source
verbatim. -/
def apos : String := (Char.ofNat 39).toString

/-- The message of the rustls invalid-domain error in `upgrade_tls_impl`. -/
def invalidDnsMsg : String := "domain isn" ++ apos ++ "t a valid DNS name"

/-- The panic message of `upgrade_tls` in a build without TLS backends. -/
def noBackendPanicMsg : String :=
  "Trying to upgrade an NetworkStream without having enabled either the native-tls or the rustls-tls feature"

/-- The `debug_assert!`/`panic!` message guarding the `None` variant. -/
def nonePanicMsg : String := "InnerNetworkStream::None must never be built"

/-- Embeds `NetworkStream::new`: a `debug_assert!` fires if the inner stream is the
`None` tag (a panic only when debug assertions are compiled in), after which
the struct is built regardless. -/
def NetworkStream.new (cfg : BuildConfig) (inner : InnerNetworkStream) :
    Outcome NetworkStream :=
  match inner with
  | InnerNetworkStream.None =>
      if cfg.debug_assertions then Outcome.panic nonePanicMsg
      else Outcome.ret { inner := inner }
  | _ => Outcome.ret { inner := inner }

/-- Embeds `NetworkStream::peer_addr`: dispatch on the variant; the TLS arms call
`get_ref().peer_addr()` on the wrapped socket; the `None` arm debug-asserts
and falls back to `127.0.0.1:80`. -/
def NetworkStream.peer_addr (cfg : BuildConfig) (s : NetworkStream) :
    Outcome (Except IoError SocketAddr) :=
  match s.inner with
  | InnerNetworkStream.Tcp t => Outcome.ret t.peer_addr
  | InnerNetworkStream.NativeTls t => Outcome.ret t.inner.peer_addr
  | InnerNetworkStream.RustlsTls t => Outcome.ret t.sock.peer_addr
  | InnerNetworkStream.None =>
      if cfg.debug_assertions then Outcome.panic nonePanicMsg
      else Outcome.ret (Except.ok { ip := IpAddr.V4 127 0 0 1, port := 80 })

/-- Embeds `NetworkStream::shutdown`. -/
def NetworkStream.shutdown (cfg : BuildConfig) (s : NetworkStream)
    (how : Shutdown) : Outcome (Except IoError Unit) :=
  match s.inner with
  | InnerNetworkStream.Tcp t => Outcome.ret (t.shutdown how)
  | InnerNetworkStream.NativeTls t => Outcome.ret (t.inner.shutdown how)
  | InnerNetworkStream.RustlsTls t => Outcome.ret (t.sock.shutdown how)
  | InnerNetworkStream.None =>
      if cfg.debug_assertions then Outcome.panic nonePanicMsg
      else Outcome.ret (Except.ok ())

/-- Embeds `NetworkStream::is_encrypted`. -/
def NetworkStream.is_encrypted (cfg : BuildConfig) (s : NetworkStream) :
    Outcome Bool :=
  match s.inner with
  | InnerNetworkStream.Tcp _ => Outcome.ret false
  | InnerNetworkStream.NativeTls _ => Outcome.ret true
  | InnerNetworkStream.RustlsTls _ => Outcome.ret true
  | InnerNetworkStream.None =>
      if cfg.debug_assertions then Outcome.panic nonePanicMsg
      else Outcome.ret false

/-- Embeds `NetworkStream::peer_certificate` (present only in TLS-enabled builds):
a plain stream gives `error::client("Connection is not encrypted")`; the
native-tls arm maps backend failures to `error::tls` and `unwrap`s the
optional certificate; the rustls arm `unwrap`s the chain and its first
element; the `None` arm is an unconditional `panic!`. -/
def NetworkStream.peer_certificate (s : NetworkStream) :
    Outcome (Except Error (List Nat)) :=
  match s.inner with
  | InnerNetworkStream.Tcp _ =>
      Outcome.ret (Except.error (error.client "Connection is not encrypted"))
  | InnerNetworkStream.NativeTls stream =>
      match stream.sess.peer_certificate with
      | Except.error e => Outcome.ret (Except.error (error.tls e))
      | Except.ok Option.none =>
          Outcome.panic "called Option::unwrap on a None value"
      | Except.ok (Option.some cert) =>
          match cert with
          | Except.error e => Outcome.ret (Except.error (error.tls e))
          | Except.ok der => Outcome.ret (Except.ok der)
  | InnerNetworkStream.RustlsTls stream =>
      match stream.conn.peer_certificates with
      | Option.none => Outcome.panic "called Option::unwrap on a None value"
      | Option.some certs =>
          match certs.head? with
          | Option.none => Outcome.panic "called Option::unwrap on a None value"
          | Option.some first => Outcome.ret (Except.ok first)
  | InnerNetworkStream.None => Outcome.panic nonePanicMsg

/-- Embeds `NetworkStream::set_read_timeout`. -/
def NetworkStream.set_read_timeout (cfg : BuildConfig) (s : NetworkStream)
    (duration : Option Duration) : Outcome (Except IoError Unit) :=
  match s.inner with
  | InnerNetworkStream.Tcp t => Outcome.ret (t.set_read_timeout duration)
  | InnerNetworkStream.NativeTls t => Outcome.ret (t.inner.set_read_timeout duration)
  | InnerNetworkStream.RustlsTls t => Outcome.ret (t.sock.set_read_timeout duration)
  | InnerNetworkStream.None =>
      if cfg.debug_assertions then Outcome.panic nonePanicMsg
      else Outcome.ret (Except.ok ())

/-- Embeds `NetworkStream::set_write_timeout`. -/
def NetworkStream.set_write_timeout (cfg : BuildConfig) (s : NetworkStream)
    (duration : Option Duration) : Outcome (Except IoError Unit) :=
  match s.inner with
  | InnerNetworkStream.Tcp t => Outcome.ret (t.set_write_timeout duration)
  | InnerNetworkStream.NativeTls t => Outcome.ret (t.inner.set_write_timeout duration)
  | InnerNetworkStream.RustlsTls t => Outcome.ret (t.sock.set_write_timeout duration)
  | InnerNetworkStream.None =>
      if cfg.debug_assertions then Outcome.panic nonePanicMsg
      else Outcome.ret (Except.ok ())

/-- Embeds `<NetworkStream as Read>::read`: delegating to the active variant; the
`None` arm debug-asserts and returns `Ok(0)`. -/
def NetworkStream.read (cfg : BuildConfig) (s : NetworkStream)
    (buf : List Nat) : Outcome (Except IoError Nat) :=
  match s.inner with
  | InnerNetworkStream.Tcp t => Outcome.ret (t.read buf)
  | InnerNetworkStream.NativeTls t => Outcome.ret (t.sess.read buf)
  | InnerNetworkStream.RustlsTls t => Outcome.ret (t.read buf)
  | InnerNetworkStream.None =>
      if cfg.debug_assertions then Outcome.panic nonePanicMsg
      else Outcome.ret (Except.ok 0)

/-- Embeds `<NetworkStream as Write>::write`. -/
def NetworkStream.write (cfg : BuildConfig) (s : NetworkStream)
    (buf : List Nat) : Outcome (Except IoError Nat) :=
  match s.inner with
  | InnerNetworkStream.Tcp t => Outcome.ret (t.write buf)
  | InnerNetworkStream.NativeTls t => Outcome.ret (t.sess.write buf)
  | InnerNetworkStream.RustlsTls t => Outcome.ret (t.write buf)
  | InnerNetworkStream.None =>
      if cfg.debug_assertions then Outcome.panic nonePanicMsg
      else Outcome.ret (Except.ok 0)

/-- Embeds `<NetworkStream as Write>::flush`. -/
def NetworkStream.flush (cfg : BuildConfig) (s : NetworkStream) :
    Outcome (Except IoError Unit) :=
  match s.inner with
  | InnerNetworkStream.Tcp t => Outcome.ret t.flush
  | InnerNetworkStream.NativeTls t => Outcome.ret t.sess.flush
  | InnerNetworkStream.RustlsTls t => Outcome.ret t.flush
  | InnerNetworkStream.None =>
      if cfg.debug_assertions then Outcome.panic nonePanicMsg
      else Outcome.ret (Except.ok ())

/-- Embeds `NetworkStream::upgrade_tls_impl`: selects the backend from
`tls_parameters.connector` and performs the handshake.  The native arm maps
a connect failure to `error::connection`; the rustls arm first converts the
domain with `ServerName::try_from` (failure is the invalid-DNS-name
connection error), then builds the `ClientConnection` (failure mapped to
`error::connection`), then wraps socket and connection in a `StreamOwned`. -/
def NetworkStream.upgrade_tls_impl (henv : HandshakeEnv)
    (tcp_stream : TcpStream) (tls_parameters : TlsParameters) :
    Except Error InnerNetworkStream :=
  match tls_parameters.connector with
  | InnerTlsParameters.NativeTls connector =>
      match henv.nativeConnect connector tls_parameters.domain with
      | Except.error e => Except.error (error.connection e)
      | Except.ok sess =>
          Except.ok (InnerNetworkStream.NativeTls { sess := sess, inner := tcp_stream })
  | InnerTlsParameters.RustlsTls connector =>
      match henv.serverNameTryFrom tls_parameters.domain with
      | Option.none => Except.error (error.connection invalidDnsMsg)
      | Option.some domain =>
          match henv.clientConnectionNew connector domain with
          | Except.error e => Except.error (error.connection e)
          | Except.ok connection =>
              Except.ok (InnerNetworkStream.RustlsTls
                { conn := connection, sock := tcp_stream,
                  read := henv.rustlsIo, write := henv.rustlsIoW,
                  flush := henv.rustlsFlush })

/-- Embeds `NetworkStream::upgrade_tls`.  In a build with no TLS backend the `Tcp`
arm panics.  Otherwise the `Tcp` arm does
`mem::replace(&mut self.inner, InnerNetworkStream::None)`, extracts the
socket, and assigns `upgrade_tls_impl(..)?` back to `self.inner` — so when
the handshake fails, the early return of `?` leaves `inner` as the `None`
tag.  Every other variant returns `Ok(())` with the state unchanged. -/
def NetworkStream.upgrade_tls (cfg : BuildConfig) (henv : HandshakeEnv)
    (s : NetworkStream) (tls_parameters : TlsParameters) :
    Outcome (Except Error Unit × NetworkStream) :=
  match s.inner with
  | InnerNetworkStream.Tcp tcp_stream =>
      if cfg.native_tls || cfg.rustls_tls then
        match NetworkStream.upgrade_tls_impl henv tcp_stream tls_parameters with
        | Except.ok inner2 =>
            Outcome.ret (Except.ok (), { inner := inner2 })
        | Except.error e =>
            Outcome.ret (Except.error e, { inner := InnerNetworkStream.None })
      else
        Outcome.panic noBackendPanicMsg
  | _ => Outcome.ret (Except.ok (), s)

/-- Embeds `resolved_address_filter`: keep a resolved candidate iff its address
family matches the local address, or there is no local address. -/
def resolved_address_filter (resolved_addr : SocketAddr)
    (local_addr : Option IpAddr) : Bool :=
  match local_addr with
  | Option.some local_addr =>
      match resolved_addr.ip with
      | IpAddr.V4 _ _ _ _ => local_addr.is_ipv4
      | IpAddr.V6 _ => local_addr.is_ipv6
  | Option.none => true

/-- Embeds `bind_local_address`: bind to the explicit local address on port 0 when
one is given (failure is a connection error); otherwise bind to the
all-zero address of the destination family on Windows, and do nothing on
other platforms. -/
def bind_local_address (cfg : BuildConfig) (env : DialEnv) (socket : Socket)
    (dst_addr : SocketAddr) (local_addr : Option IpAddr) :
    Except Error Unit :=
  match local_addr with
  | Option.some local_addr =>
      match env.bind socket { ip := local_addr, port := 0 } with
      | Except.error e => Except.error (error.connection e)
      | Except.ok _ => Except.ok ()
  | Option.none =>
      if cfg.windows then
        let anyAddr : SocketAddr :=
          match dst_addr.ip with
          | IpAddr.V4 _ _ _ _ => { ip := IpAddr.V4 0 0 0 0, port := 0 }
          | IpAddr.V6 _ => { ip := IpAddr.V6 0, port := 0 }
        match env.bind socket anyAddr with
        | Except.error e => Except.error (error.connection e)
        | Except.ok _ => Except.ok ()
      else Except.ok ()

/-- The connect attempt of one loop iteration of `try_connect`:
`socket.connect_timeout(&addr.into(), timeout)` when a timeout was
supplied, `socket.connect(&addr.into())` otherwise. -/
def connect_attempt (env : DialEnv) (timeout : Option Duration)
    (socket : Socket) (addr : SocketAddr) : Except IoError Unit :=
  match timeout with
  | Option.some t => env.connect_timeout socket addr t
  | Option.none => env.connect socket addr

/-- The candidate loop of `try_connect`, with the `last_err` accumulator
made explicit.  For each address: create the socket (failure returns a
connection error at once), apply the binding policy (its error propagates
at once), then attempt to connect — success returns `socket.into()`, failure
records the error and moves on.  An exhausted list yields the connection
error of the last failure, or the could-not-resolve message when nothing
was attempted. -/
def tryConnectLoop (cfg : BuildConfig) (env : DialEnv)
    (timeout : Option Duration) (local_addr : Option IpAddr) :
    List SocketAddr → Option IoError → Except Error TcpStream
  | [], last_err =>
      Except.error (match last_err with
        | Option.some e => error.connection e
        | Option.none => error.connection "could not resolve to any address")
  | addr :: rest, _last_err =>
      match env.socketNew addr with
      | Except.error e => Except.error (error.connection e)
      | Except.ok socket =>
          match bind_local_address cfg env socket addr local_addr with
          | Except.error e => Except.error e
          | Except.ok _ =>
              match connect_attempt env timeout socket addr with
              | Except.ok _ => Except.ok socket.into
              | Except.error err =>
                  tryConnectLoop cfg env timeout local_addr rest (Option.some err)

/-- Embeds `try_connect`: resolve (the resolver outcome is a parameter; its failure
maps to a connection error), filter the candidates against the local
address, then run the candidate loop starting with no recorded error. -/
def try_connect (cfg : BuildConfig) (env : DialEnv)
    (resolved : Except IoError (List SocketAddr)) (timeout : Option Duration)
    (local_addr : Option IpAddr) : Except Error TcpStream :=
  match resolved with
  | Except.error e => Except.error (error.connection e)
  | Except.ok addrs =>
      tryConnectLoop cfg env timeout local_addr
        (addrs.filter (fun a => resolved_address_filter a local_addr)) Option.none

/-- Embeds `NetworkStream::connect`: dial, wrap the socket into a `Plain` stream,
and upgrade it when TLS parameters were supplied (an upgrade failure drops
the stream and propagates the error). -/
def NetworkStream.connect (cfg : BuildConfig) (denv : DialEnv)
    (henv : HandshakeEnv) (resolved : Except IoError (List SocketAddr))
    (timeout : Option Duration) (tls_parameters : Option TlsParameters)
    (local_addr : Option IpAddr) : Outcome (Except Error NetworkStream) :=
  match try_connect cfg denv resolved timeout local_addr with
  | Except.error e => Outcome.ret (Except.error e)
  | Except.ok tcp_stream =>
      match NetworkStream.new cfg (InnerNetworkStream.Tcp tcp_stream) with
      | Outcome.panic m => Outcome.panic m
      | Outcome.ret stream =>
          match tls_parameters with
          | Option.none => Outcome.ret (Except.ok stream)
          | Option.some tp =>
              match NetworkStream.upgrade_tls cfg henv stream tp with
              | Outcome.panic m => Outcome.panic m
              | Outcome.ret (Except.error e, _) => Outcome.ret (Except.error e)
              | Outcome.ret (Except.ok _, stream2) => Outcome.ret (Except.ok stream2)

end Lettre

namespace Lettre

/-! Concrete fixtures used by evaluation and witness theorems. -/

/-- A concrete established socket. -/
def tcp0 : TcpStream :=
  { peer_addr := Except.ok { ip := IpAddr.V4 10 0 0 2, port := 25 },
    read := fun _ => Except.ok 0,
    write := fun b => Except.ok b.length,
    flush := Except.ok (),
    shutdown := fun _ => Except.ok (),
    set_read_timeout := fun _ => Except.ok (),
    set_write_timeout := fun _ => Except.ok () }

/-- A build with the rustls backend and debug assertions enabled. -/
def cfgTls : BuildConfig :=
  { native_tls := false, rustls_tls := true, debug_assertions := true,
    windows := false }

/-- A release build with both TLS backends and debug assertions disabled. -/
def cfgRelease : BuildConfig :=
  { native_tls := true, rustls_tls := true, debug_assertions := false,
    windows := false }

/-- A build with no TLS backend compiled in. -/
def cfgNoTls : BuildConfig :=
  { native_tls := false, rustls_tls := false, debug_assertions := true,
    windows := false }

/-- A handshake environment in which the domain fails DNS-name conversion
and every handshake fails. -/
def henvBad : HandshakeEnv :=
  { nativeConnect := fun _ _ => Except.error "handshake failed",
    serverNameTryFrom := fun _ => Option.none,
    clientConnectionNew := fun _ _ => Except.error "no connection",
    rustlsIo := fun _ => Except.ok 0,
    rustlsIoW := fun b => Except.ok b.length,
    rustlsFlush := Except.ok () }

/-- A handshake environment in which the rustls handshake succeeds. -/
def henvOk : HandshakeEnv :=
  { nativeConnect := fun _ _ => Except.error "unused",
    serverNameTryFrom := fun d => Option.some d,
    clientConnectionNew := fun _ _ =>
      Except.ok { peer_certificates := Option.some [[48, 130]] },
    rustlsIo := fun _ => Except.ok 0,
    rustlsIoW := fun b => Except.ok b.length,
    rustlsFlush := Except.ok () }

/-- Rustls TLS parameters with a domain the environment rejects. -/
def tlsBad : TlsParameters :=
  { connector := InnerTlsParameters.RustlsTls 0, domain := "bad domain" }

/-- Rustls TLS parameters with a domain the environment accepts. -/
def tlsGood : TlsParameters :=
  { connector := InnerTlsParameters.RustlsTls 0, domain := "smtp.example.com" }

/-! Claim theorems. -/

/-- C1: evaluation of the code at the failing input.  On a `Plain` stream,
with a TLS backend compiled in, an `upgrade_tls` whose handshake fails
(here: rustls rejects the domain name) returns the connection error while
leaving the handle's `inner` field holding the transient `None` tag — the
`?` after `mem::replace` returns early without restoring a fallback state,
so the claimed invariant does not hold on this path. -/
theorem upgrade_tls_failed_handshake_leaves_empty_tag :
    NetworkStream.upgrade_tls cfgTls henvBad
        { inner := InnerNetworkStream.Tcp tcp0 } tlsBad
      = Outcome.ret
          (Except.error (error.connection invalidDnsMsg),
           { inner := InnerNetworkStream.None }) := rfl

/-- C4: with a v4 local address the filter keeps exactly the v4 candidates,
with a v6 local address exactly the v6 candidates, and with no local
address every candidate passes. -/
theorem resolved_address_filter_family_match :
    (∀ (a b c d : Nat) (addr : SocketAddr),
      resolved_address_filter addr (Option.some (IpAddr.V4 a b c d))
        = addr.ip.is_ipv4)
    ∧ (∀ (n : Nat) (addr : SocketAddr),
      resolved_address_filter addr (Option.some (IpAddr.V6 n))
        = addr.ip.is_ipv6)
    ∧ (∀ addr : SocketAddr,
      resolved_address_filter addr Option.none = true) := by
  refine ⟨?_, ?_, ?_⟩
  · intro a b c d addr
    rcases addr with ⟨ip, p⟩
    cases ip <;> rfl
  · intro n addr
    rcases addr with ⟨ip, p⟩
    cases ip <;> rfl
  · intro addr
    rfl

/-- C5: on a stream already in an encrypted variant, `upgrade_tls` returns
`Ok(())` with the state unchanged, for every configuration and every
handshake environment — in particular no handshake is consulted, since the
result does not depend on the environment. -/
theorem upgrade_tls_idempotent_on_encrypted :
    ∀ (cfg : BuildConfig) (henv : HandshakeEnv) (tls : TlsParameters),
      (∀ s : NativeTlsStream,
        NetworkStream.upgrade_tls cfg henv
            { inner := InnerNetworkStream.NativeTls s } tls
          = Outcome.ret (Except.ok (),
              { inner := InnerNetworkStream.NativeTls s }))
      ∧ (∀ s : RustlsStreamOwned,
        NetworkStream.upgrade_tls cfg henv
            { inner := InnerNetworkStream.RustlsTls s } tls
          = Outcome.ret (Except.ok (),
              { inner := InnerNetworkStream.RustlsTls s })) :=
  fun _ _ _ => ⟨fun _ => rfl, fun _ => rfl⟩

/-- C6: `peer_certificate` on a plain stream returns the client/usage-error
category (`error::client`), which is distinct from both the connection and
the certificate (tls) categories. -/
theorem peer_certificate_on_plain_is_client_error :
    ∀ t : TcpStream,
      NetworkStream.peer_certificate { inner := InnerNetworkStream.Tcp t }
        = Outcome.ret (Except.error (error.client "Connection is not encrypted"))
      ∧ (error.client "Connection is not encrypted").kind = ErrorKind.Client
      ∧ ErrorKind.Client ≠ ErrorKind.Connection
      ∧ ErrorKind.Client ≠ ErrorKind.Tls :=
  fun _ => ⟨rfl, rfl, by decide, by decide⟩

/-- C7: in a build with neither TLS feature, `upgrade_tls` on a plain
stream panics (fatal contract violation) instead of returning an error
value. -/
theorem upgrade_tls_no_backend_panics
    (cfg : BuildConfig) (h1 : cfg.native_tls = false)
    (h2 : cfg.rustls_tls = false) (henv : HandshakeEnv) (t : TcpStream)
    (tls : TlsParameters) :
    NetworkStream.upgrade_tls cfg henv
        { inner := InnerNetworkStream.Tcp t } tls
      = Outcome.panic noBackendPanicMsg := by
  simp [NetworkStream.upgrade_tls, h1, h2]

/-- C7 witness: the panic observed at a concrete no-backend build. -/
theorem upgrade_tls_no_backend_panics_witness :
    NetworkStream.upgrade_tls cfgNoTls henvBad
        { inner := InnerNetworkStream.Tcp tcp0 } tlsBad
      = Outcome.panic noBackendPanicMsg :=
  upgrade_tls_no_backend_panics cfgNoTls rfl rfl henvBad tcp0 tlsBad


/-- A handle whose inner field holds the transient `None` tag (the state
the failed-upgrade path of `upgrade_tls` leaves behind). -/
def noneStream : NetworkStream := { inner := InnerNetworkStream.None }

/-- C8 counterexample: in a build with debug assertions disabled (a release
build), a `read` on a handle holding the `None` tag does not abort: the
compiled-out `debug_assert!` falls through and the call silently returns
the ordinary success `Ok(0)`. -/
theorem read_on_empty_tag_silently_succeeds_in_release :
    NetworkStream.read cfgRelease noneStream [] = Outcome.ret (Except.ok 0)
    ∧ ∀ m : String,
        NetworkStream.read cfgRelease noneStream [] ≠ Outcome.panic m := by
  refine ⟨rfl, ?_⟩
  intro m h
  exact Outcome.noConfusion h

/-- C8 (amended): an operation invoked on a handle holding the transient
`None` tag aborts via the failing `debug_assert!` exactly when debug
assertions are compiled in; with them disabled it silently returns a benign
fallback (`Ok(())`/`Ok(0)` successes, `127.0.0.1:80` for the peer address,
`false` for `is_encrypted`) rather than aborting. -/
theorem empty_tag_ops_panic_iff_debug_assertions :
    ∀ (cfg : BuildConfig) (how : Shutdown) (d : Option Duration)
      (buf : List Nat),
      (cfg.debug_assertions = true →
        NetworkStream.peer_addr cfg noneStream = Outcome.panic nonePanicMsg
        ∧ NetworkStream.shutdown cfg noneStream how = Outcome.panic nonePanicMsg
        ∧ NetworkStream.is_encrypted cfg noneStream = Outcome.panic nonePanicMsg
        ∧ NetworkStream.set_read_timeout cfg noneStream d = Outcome.panic nonePanicMsg
        ∧ NetworkStream.set_write_timeout cfg noneStream d = Outcome.panic nonePanicMsg
        ∧ NetworkStream.read cfg noneStream buf = Outcome.panic nonePanicMsg
        ∧ NetworkStream.write cfg noneStream buf = Outcome.panic nonePanicMsg
        ∧ NetworkStream.flush cfg noneStream = Outcome.panic nonePanicMsg)
      ∧ (cfg.debug_assertions = false →
        NetworkStream.peer_addr cfg noneStream
            = Outcome.ret (Except.ok { ip := IpAddr.V4 127 0 0 1, port := 80 })
        ∧ NetworkStream.shutdown cfg noneStream how = Outcome.ret (Except.ok ())
        ∧ NetworkStream.is_encrypted cfg noneStream = Outcome.ret false
        ∧ NetworkStream.set_read_timeout cfg noneStream d = Outcome.ret (Except.ok ())
        ∧ NetworkStream.set_write_timeout cfg noneStream d = Outcome.ret (Except.ok ())
        ∧ NetworkStream.read cfg noneStream buf = Outcome.ret (Except.ok 0)
        ∧ NetworkStream.write cfg noneStream buf = Outcome.ret (Except.ok 0)
        ∧ NetworkStream.flush cfg noneStream = Outcome.ret (Except.ok ())) := by
  intro cfg how d buf
  constructor <;> intro h <;>
    refine ⟨?_, ?_, ?_, ?_, ?_, ?_, ?_, ?_⟩ <;>
    simp [NetworkStream.peer_addr, NetworkStream.shutdown,
      NetworkStream.is_encrypted, NetworkStream.set_read_timeout,
      NetworkStream.set_write_timeout, NetworkStream.read,
      NetworkStream.write, NetworkStream.flush, noneStream, h]

/-- C8 witness: both branches observed at concrete builds: `cfgTls` has
debug assertions on (panic), `cfgRelease` has them off (silent `Ok(0)`). -/
theorem empty_tag_ops_witness :
    NetworkStream.peer_addr cfgTls noneStream = Outcome.panic nonePanicMsg
    ∧ NetworkStream.write cfgRelease noneStream [] = Outcome.ret (Except.ok 0) := by
  refine ⟨?_, ?_⟩
  · exact ((empty_tag_ops_panic_iff_debug_assertions cfgTls
      Shutdown.Both Option.none []).1 rfl).1
  · have h := (empty_tag_ops_panic_iff_debug_assertions cfgRelease
      Shutdown.Both Option.none []).2 rfl
    exact h.2.2.2.2.2.2.1

/-- Helper: a successful `upgrade_tls_impl` yields an encrypted variant
wrapping exactly the socket that was passed in. -/
lemma upgrade_tls_impl_ok_shape (henv : HandshakeEnv) (tcp : TcpStream)
    (tls : TlsParameters) (inner2 : InnerNetworkStream)
    (h : NetworkStream.upgrade_tls_impl henv tcp tls = Except.ok inner2) :
    (∃ sess, inner2 = InnerNetworkStream.NativeTls
        { sess := sess, inner := tcp })
    ∨ (∃ conn, inner2 = InnerNetworkStream.RustlsTls
        { conn := conn, sock := tcp, read := henv.rustlsIo,
          write := henv.rustlsIoW, flush := henv.rustlsFlush }) := by
  unfold NetworkStream.upgrade_tls_impl at h
  rcases tls with ⟨conn, dom⟩
  cases conn with
  | NativeTls c =>
      cases hc : henv.nativeConnect c dom with
      | error e =>
          simp only [hc] at h
          exact Except.noConfusion h
      | ok sess =>
          simp only [hc, Except.ok.injEq] at h
          exact Or.inl ⟨sess, h.symm⟩
  | RustlsTls c =>
      cases hs : henv.serverNameTryFrom dom with
      | none =>
          simp only [hs] at h
          exact Except.noConfusion h
      | some domain =>
          cases hn : henv.clientConnectionNew c domain with
          | error e =>
              simp only [hs, hn] at h
              exact Except.noConfusion h
          | ok connection =>
              simp only [hs, hn, Except.ok.injEq] at h
              exact Or.inr ⟨connection, h.symm⟩

/-- C9: `is_encrypted` is `false` on the handle a successful plain connect
(no TLS parameters) returns, and after a successful `upgrade_tls` on a
plain handle it is `true`, with `peer_addr` answering exactly as the
wrapped socket did before the upgrade. -/
theorem is_encrypted_connect_upgrade_transitions :
    ∀ (cfg : BuildConfig) (denv : DialEnv) (henv : HandshakeEnv)
      (resolved : Except IoError (List SocketAddr))
      (timeout : Option Duration) (la : Option IpAddr)
      (tls : TlsParameters) (tcp : TcpStream) (st st2 : NetworkStream),
      (NetworkStream.connect cfg denv henv resolved timeout Option.none la
          = Outcome.ret (Except.ok st) →
        NetworkStream.is_encrypted cfg st = Outcome.ret false)
      ∧ (NetworkStream.upgrade_tls cfg henv
            { inner := InnerNetworkStream.Tcp tcp } tls
          = Outcome.ret (Except.ok (), st2) →
        NetworkStream.is_encrypted cfg st2 = Outcome.ret true
        ∧ NetworkStream.peer_addr cfg st2 = Outcome.ret tcp.peer_addr
        ∧ NetworkStream.peer_addr cfg { inner := InnerNetworkStream.Tcp tcp }
            = Outcome.ret tcp.peer_addr) := by
  intro cfg denv henv resolved timeout la tls tcp st st2
  constructor
  · intro h
    unfold NetworkStream.connect at h
    cases htc : try_connect cfg denv resolved timeout la with
    | error e => rw [htc] at h; simp at h
    | ok t =>
        rw [htc] at h
        simp only [NetworkStream.new] at h
        simp only [Outcome.ret.injEq, Except.ok.injEq] at h
        subst h
        rfl
  · intro h
    unfold NetworkStream.upgrade_tls at h
    by_cases hb : (cfg.native_tls || cfg.rustls_tls) = true
    · simp only [hb, if_true] at h
      cases himpl : NetworkStream.upgrade_tls_impl henv tcp tls with
      | error e => rw [himpl] at h; simp at h
      | ok inner2 =>
          rw [himpl] at h
          simp only [Outcome.ret.injEq, Prod.mk.injEq] at h
          rcases h with ⟨-, h2⟩
          subst h2
          rcases upgrade_tls_impl_ok_shape henv tcp tls inner2 himpl with
            ⟨sess, rfl⟩ | ⟨conn, rfl⟩
          · exact ⟨rfl, rfl, rfl⟩
          · exact ⟨rfl, rfl, rfl⟩
    · simp only [Bool.not_eq_true] at hb
      simp only [hb, if_false] at h
      simp at h


/-- A dial environment in which every step succeeds, with every socket
becoming `tcp0` once connected. -/
def denvOk : DialEnv :=
  { socketNew := fun _ => Except.ok { into := tcp0 },
    bind := fun _ _ => Except.ok (),
    connect_timeout := fun _ _ _ => Except.ok (),
    connect := fun _ _ => Except.ok () }

/-- A concrete resolved candidate address. -/
def addrA : SocketAddr := { ip := IpAddr.V4 10 0 0 2, port := 25 }

/-- The plain handle a successful connect against `denvOk` produces. -/
def stPlain : NetworkStream := { inner := InnerNetworkStream.Tcp tcp0 }

/-- The encrypted handle a successful rustls upgrade of `stPlain` under
`henvOk` produces. -/
def stUp : NetworkStream :=
  { inner := InnerNetworkStream.RustlsTls
      { conn := { peer_certificates := Option.some [[48, 130]] },
        sock := tcp0, read := henvOk.rustlsIo, write := henvOk.rustlsIoW,
        flush := henvOk.rustlsFlush } }

/-- C9 witness: the transitions observed on a concrete successful connect
followed by a concrete successful upgrade. -/
theorem is_encrypted_connect_upgrade_transitions_witness :
    (NetworkStream.is_encrypted cfgTls stPlain = Outcome.ret false)
    ∧ (NetworkStream.is_encrypted cfgTls stUp = Outcome.ret true
       ∧ NetworkStream.peer_addr cfgTls stUp = Outcome.ret tcp0.peer_addr
       ∧ NetworkStream.peer_addr cfgTls { inner := InnerNetworkStream.Tcp tcp0 }
           = Outcome.ret tcp0.peer_addr) := by
  refine ⟨?_, ?_⟩
  · exact (is_encrypted_connect_upgrade_transitions cfgTls denvOk henvOk
      (Except.ok [addrA]) Option.none Option.none tlsGood tcp0 stPlain
      stUp).1 rfl
  · exact (is_encrypted_connect_upgrade_transitions cfgTls denvOk henvOk
      (Except.ok [addrA]) Option.none Option.none tlsGood tcp0 stPlain
      stUp).2 rfl


/-- One candidate fails at the connect step, its socket having been created
and bound successfully: the only kind of per-candidate failure the dialer
loop records and skips past. -/
def attemptFailsConnect (cfg : BuildConfig) (env : DialEnv)
    (timeout : Option Duration) (la : Option IpAddr) (a : SocketAddr) :
    Prop :=
  ∃ (s : Socket) (e : IoError),
    env.socketNew a = Except.ok s
    ∧ bind_local_address cfg env s a la = Except.ok ()
    ∧ connect_attempt env timeout s a = Except.error e

/-- Helper: the loop turns one connect-failing candidate into a recorded
error and moves to the rest of the list. -/
lemma tryConnectLoop_cons_fail (cfg : BuildConfig) (env : DialEnv)
    (timeout : Option Duration) (la : Option IpAddr) (a : SocketAddr)
    (rest : List SocketAddr) (le : Option IoError)
    (h : attemptFailsConnect cfg env timeout la a) :
    ∃ e2, tryConnectLoop cfg env timeout la (a :: rest) le
        = tryConnectLoop cfg env timeout la rest (Option.some e2) := by
  obtain ⟨s, e, h1, h2, h3⟩ := h
  refine ⟨e, ?_⟩
  simp only [tryConnectLoop, h1, h2, h3]

/-- Helper: the loop skips over any prefix of connect-failing candidates,
reaching the remainder of the list with some recorded error. -/
lemma tryConnectLoop_skip_failures (cfg : BuildConfig) (env : DialEnv)
    (timeout : Option Duration) (la : Option IpAddr) :
    ∀ (pre rest : List SocketAddr) (le : Option IoError),
      (∀ a ∈ pre, attemptFailsConnect cfg env timeout la a) →
      ∃ le2, tryConnectLoop cfg env timeout la (pre ++ rest) le
          = tryConnectLoop cfg env timeout la rest le2 := by
  intro pre
  induction pre with
  | nil => exact fun rest le _ => ⟨le, rfl⟩
  | cons a pre ih =>
      intro rest le h
      obtain ⟨e2, heq⟩ := tryConnectLoop_cons_fail cfg env timeout la a
        (pre ++ rest) le (h a (List.mem_cons_self a pre))
      obtain ⟨le2, h2⟩ := ih rest (Option.some e2)
        (fun x hx => h x (List.mem_cons_of_mem a hx))
      exact ⟨le2, by rw [List.cons_append, heq, h2]⟩

/-- C2: when the filtered candidate list splits into a prefix `pre` of
candidates that fail only at connect, a connectable candidate `c`, and an
arbitrary remainder `post`, the dialer returns the connection to `c` — the
first connectable candidate in resolution order — whatever `post` holds,
so no candidate after the first success is attempted. -/
theorem try_connect_first_connectable_wins
    (cfg : BuildConfig) (env : DialEnv) (timeout : Option Duration)
    (la : Option IpAddr) (addrs pre post : List SocketAddr)
    (c : SocketAddr) (s : Socket)
    (hsplit : addrs.filter (fun a => resolved_address_filter a la)
        = pre ++ c :: post)
    (hpre : ∀ a ∈ pre, attemptFailsConnect cfg env timeout la a)
    (hnew : env.socketNew c = Except.ok s)
    (hbind : bind_local_address cfg env s c la = Except.ok ())
    (hconn : connect_attempt env timeout s c = Except.ok ()) :
    try_connect cfg env (Except.ok addrs) timeout la = Except.ok s.into := by
  show tryConnectLoop cfg env timeout la
      (addrs.filter (fun a => resolved_address_filter a la)) Option.none
    = Except.ok s.into
  rw [hsplit]
  obtain ⟨le2, hskip⟩ := tryConnectLoop_skip_failures cfg env timeout la pre
    (c :: post) Option.none hpre
  rw [hskip]
  simp only [tryConnectLoop, hnew, hbind, hconn]

/-- C3: when the filtered list is non-empty and every candidate fails at
connect (prefix `init` plus last candidate `c` failing with `e`), the
dialer returns the connection error built from that last failure; when the
filtered list is empty it returns the connection error carrying the
could-not-resolve message.  Both are in the connection category, differing
only in message. -/
theorem try_connect_failure_errors
    (cfg : BuildConfig) (env : DialEnv) (timeout : Option Duration)
    (la : Option IpAddr) :
    (∀ (addrs init : List SocketAddr) (c : SocketAddr) (s : Socket)
       (e : IoError),
      addrs.filter (fun a => resolved_address_filter a la) = init ++ [c] →
      (∀ a ∈ init, attemptFailsConnect cfg env timeout la a) →
      env.socketNew c = Except.ok s →
      bind_local_address cfg env s c la = Except.ok () →
      connect_attempt env timeout s c = Except.error e →
      try_connect cfg env (Except.ok addrs) timeout la
          = Except.error (error.connection e)
      ∧ (error.connection e).kind = ErrorKind.Connection)
    ∧ (∀ addrs : List SocketAddr,
      addrs.filter (fun a => resolved_address_filter a la) = [] →
      try_connect cfg env (Except.ok addrs) timeout la
          = Except.error
              (error.connection "could not resolve to any address")
      ∧ (error.connection "could not resolve to any address").kind
          = ErrorKind.Connection) := by
  constructor
  · intro addrs init c s e hsplit hinit hnew hbind hconn
    refine ⟨?_, rfl⟩
    show tryConnectLoop cfg env timeout la
        (addrs.filter (fun a => resolved_address_filter a la)) Option.none
      = Except.error (error.connection e)
    rw [hsplit]
    obtain ⟨le2, hskip⟩ := tryConnectLoop_skip_failures cfg env timeout la
      init [c] Option.none hinit
    rw [hskip]
    simp only [tryConnectLoop, hnew, hbind, hconn]
  · intro addrs hempty
    refine ⟨?_, rfl⟩
    show tryConnectLoop cfg env timeout la
        (addrs.filter (fun a => resolved_address_filter a la)) Option.none
      = Except.error (error.connection "could not resolve to any address")
    rw [hempty]
    rfl

/-- C10: only connect failures make the loop continue.  After a prefix of
connect-failing candidates, a candidate whose socket creation fails makes
the dialer return that connection error at once, and a candidate whose
local bind fails makes it return the bind error at once — for an arbitrary
`post`, so no later candidate is attempted. -/
theorem try_connect_setup_failure_aborts
    (cfg : BuildConfig) (env : DialEnv) (timeout : Option Duration)
    (la : Option IpAddr) (addrs pre post : List SocketAddr) (c : SocketAddr)
    (hsplit : addrs.filter (fun a => resolved_address_filter a la)
        = pre ++ c :: post)
    (hpre : ∀ a ∈ pre, attemptFailsConnect cfg env timeout la a) :
    (∀ e : IoError, env.socketNew c = Except.error e →
      try_connect cfg env (Except.ok addrs) timeout la
          = Except.error (error.connection e))
    ∧ (∀ (s : Socket) (berr : Error), env.socketNew c = Except.ok s →
      bind_local_address cfg env s c la = Except.error berr →
      try_connect cfg env (Except.ok addrs) timeout la
          = Except.error berr) := by
  obtain ⟨le2, hskip⟩ := tryConnectLoop_skip_failures cfg env timeout la pre
    (c :: post) Option.none hpre
  constructor
  · intro e hnew
    show tryConnectLoop cfg env timeout la
        (addrs.filter (fun a => resolved_address_filter a la)) Option.none
      = Except.error (error.connection e)
    rw [hsplit, hskip]
    simp only [tryConnectLoop, hnew]
  · intro s berr hnew hbind
    show tryConnectLoop cfg env timeout la
        (addrs.filter (fun a => resolved_address_filter a la)) Option.none
      = Except.error berr
    rw [hsplit, hskip]
    simp only [tryConnectLoop, hnew, hbind]


/-- A concrete candidate address on port `p`. -/
def aP (p : Nat) : SocketAddr := { ip := IpAddr.V4 10 0 0 1, port := p }

/-- A concrete fresh socket associated with port `p` (distinguishable by
the peer address it reports once connected). -/
def sockFor (p : Nat) : Socket :=
  { into :=
      { tcp0 with peer_addr := Except.ok { ip := IpAddr.V4 10 0 0 1, port := p } } }

/-- A dial environment in which only the candidate on port 2 accepts the
connection, socket creation fails on port 4, and every other candidate
refuses with a port-tagged message. -/
def denvW : DialEnv :=
  { socketNew := fun a =>
      if a.port == 4 then Except.error "no socket"
      else Except.ok (sockFor a.port),
    bind := fun _ _ => Except.ok (),
    connect_timeout := fun _ _ _ => Except.error "timed out",
    connect := fun _ a =>
      if a.port == 2 then Except.ok ()
      else Except.error ("refused " ++ Nat.repr a.port) }

/-- A dial environment in which binding the local address always fails. -/
def denvBindFail : DialEnv :=
  { socketNew := fun a => Except.ok (sockFor a.port),
    bind := fun _ _ => Except.error "bind failed",
    connect_timeout := fun _ _ _ => Except.ok (),
    connect := fun _ _ => Except.ok () }

/-- C2 witness: candidates on ports 1, 2, 3 where only port 2 accepts —
the dialer returns the port-2 socket although a candidate after it
exists. -/
theorem try_connect_first_connectable_wins_witness :
    try_connect cfgTls denvW (Except.ok [aP 1, aP 2, aP 3]) Option.none
        Option.none = Except.ok (sockFor 2).into := by
  refine try_connect_first_connectable_wins cfgTls denvW Option.none
    Option.none [aP 1, aP 2, aP 3] [aP 1] [aP 3] (aP 2) (sockFor 2)
    rfl ?_ rfl rfl rfl
  intro a ha
  have hx : a = aP 1 := by simpa using ha
  subst hx
  exact ⟨sockFor 1, "refused " ++ Nat.repr 1, rfl, rfl, rfl⟩

/-- C3 witness: ports 1 and 3 both refuse and the returned error carries
the port-3 (last) failure; an empty candidate list yields the
could-not-resolve message. -/
theorem try_connect_failure_errors_witness :
    (try_connect cfgTls denvW (Except.ok [aP 1, aP 3]) Option.none
        Option.none
      = Except.error (error.connection ("refused " ++ Nat.repr 3)))
    ∧ (try_connect cfgTls denvW (Except.ok []) Option.none Option.none
      = Except.error
          (error.connection "could not resolve to any address")) := by
  refine ⟨?_, ?_⟩
  · refine ((try_connect_failure_errors cfgTls denvW Option.none
      Option.none).1 [aP 1, aP 3] [aP 1] (aP 3) (sockFor 3)
      ("refused " ++ Nat.repr 3) rfl ?_ rfl rfl rfl).1
    intro a ha
    have hx : a = aP 1 := by simpa using ha
    subst hx
    exact ⟨sockFor 1, "refused " ++ Nat.repr 1, rfl, rfl, rfl⟩
  · exact ((try_connect_failure_errors cfgTls denvW Option.none
      Option.none).2 [] rfl).1

/-- C10 witness: socket creation fails on port 4 and that connection error
is returned at once although the port-2 candidate after it would accept;
with a local address and an environment whose bind fails, the bind error is
returned at once in the same way. -/
theorem try_connect_setup_failure_aborts_witness :
    (try_connect cfgTls denvW (Except.ok [aP 4, aP 2]) Option.none
        Option.none = Except.error (error.connection "no socket"))
    ∧ (try_connect cfgTls denvBindFail (Except.ok [aP 1, aP 2]) Option.none
        (Option.some (IpAddr.V4 192 168 0 1))
      = Except.error (error.connection "bind failed")) := by
  refine ⟨?_, ?_⟩
  · exact (try_connect_setup_failure_aborts cfgTls denvW Option.none
      Option.none [aP 4, aP 2] [] [aP 2] (aP 4) rfl
      (fun a ha => absurd ha (List.not_mem_nil a))).1 "no socket" rfl
  · exact (try_connect_setup_failure_aborts cfgTls denvBindFail Option.none
      (Option.some (IpAddr.V4 192 168 0 1)) [aP 1, aP 2] [] [aP 2] (aP 1)
      rfl (fun a ha => absurd ha (List.not_mem_nil a))).2 (sockFor 1)
      (error.connection "bind failed") rfl rfl

end Lettre
